import Mathlib

/-!
Shallow embedding of the upload pipeline of `src/main.py` (nas-rclone-pro).

The embedded core is `process_file` together with its helpers
`is_file_free` (StabilityGate), the dedup ledger operations backed by the
sqlite table `history` (`lookupSuccess` for the SELECT on line 132,
`recordUpsert` for the INSERT OR REPLACE on line 165), and
`send_notification` (NotificationDispatcher).

Interaction with the outside world (filesystem, subprocess, network) is
modelled by explicit oracle records (`FsEnv`, `NotifyEnv`): each field holds
the outcome the corresponding operation of the source would observe, with
`none` / `false` standing for the operation raising an exception.  A Python
exception that the source catches is modelled by the branch the handler
takes; an uncaught exception ends the run with no further effects, exactly
as it kills the worker thread in the source.

A file path is passed decomposed as `dirpart` (the result of
`os.path.dirname`) and `filename` (the result of `os.path.basename`), since
the source only ever uses those two projections of the path.
-/

namespace NasRclone

/-- `WATCH_DIR` constant from `src/main.py` line 19. -/
def WATCH_DIR : String := "/watchdir"

/-- The fixed tuple of transient-download suffixes from `src/main.py`
line 124: `filename.endswith(('.tmp', '.aria2', '.part', '.downloading',
'.ds_store'))`. -/
def TRANSIENT_SUFFIXES : List String :=
  [".tmp", ".aria2", ".part", ".downloading", ".ds_store"]

/-- Python `str.endswith`: the suffix test on the character sequence of a
string (stated on `String.data`, the list of characters). -/
def strEndsWith (s suf : String) : Bool :=
  suf.data.isSuffixOf s.data

/-- The filter test of `src/main.py` line 124:
`filename.endswith(('.tmp', '.aria2', '.part', '.downloading', '.ds_store'))`.
Python `str.endswith` is case-sensitive. -/
def isTransientName (filename : String) : Bool :=
  TRANSIENT_SUFFIXES.any (fun suf => strEndsWith filename suf)

/-- One row of the sqlite `history` table (`src/main.py` lines 79-82):
columns filename, size, upload_time, status; the `id` autoincrement column
is never consulted by the pipeline and is omitted.  `status` is the string
`"success"` or `"failed"` exactly as stored by line 162. -/
structure Row where
  filename : String
  size : Nat
  upload_time : String
  status : String
deriving DecidableEq, Repr

/-- Two rows collide on the UNIQUE(filename, size) key of the table. -/
def sameKey (a b : Row) : Bool :=
  a.filename == b.filename && a.size == b.size

/-- The dedup lookup of `src/main.py` line 132:
`SELECT * FROM history WHERE filename=? AND size=? AND status='success'`,
used through `cur.fetchone()` as a boolean. -/
def lookupSuccess (db : List Row) (fn : String) (sz : Nat) : Bool :=
  db.any (fun q => q.filename == fn && q.size == sz && q.status == "success")

/-- The ledger write of `src/main.py` line 165:
`INSERT OR REPLACE INTO history ...` on a table with UNIQUE(filename, size).
SQLite deletes any row that collides on the unique key and inserts the new
row; the surviving order of unrelated rows is irrelevant to every query the
program makes. -/
def recordUpsert (db : List Row) (r : Row) : List Row :=
  r :: db.filter (fun q => !(q.filename == r.filename && q.size == r.size))

/-- A sequence of `record` operations applied to a ledger. -/
def applyRecords (db : List Row) (rs : List Row) : List Row :=
  rs.foldl recordUpsert db

/-- The UNIQUE(filename, size) schema invariant: no two rows of the ledger
collide on the key. -/
def uniqueKeys (db : List Row) : Prop :=
  db.Pairwise (fun a b => sameKey a b = false)

/-- StabilityGate, `is_file_free` of `src/main.py` lines 93-99.  The two
`os.path.getsize` calls are the oracle arguments `sample1` and `sample2`
(taken `duration` seconds apart in the source); `none` models the call
raising (file vanished / unreadable), in which case the bare `except`
returns `False` instead of propagating.  The Lean function is total: no
input makes it raise. -/
def is_file_free (duration : Nat) (sample1 sample2 : Option Nat) : Bool :=
  match sample1, sample2 with
  | some s1, some s2 => s1 == s2
  | _, _ => false

/-- The settings snapshot consumed by one pipeline run, mirroring
`DEFAULT_SETTINGS` of `src/main.py` lines 34-53 (fields the pipeline and
the notifier read). -/
structure Settings where
  check_duration : Nat
  prevent_reupload : Bool
  auto_delete : Bool
  rclone_remote : String
  rclone_path : String
  rclone_buffer : String
  rclone_transfers : String
  rclone_checkers : String
  notify_email_enable : Bool
  smtp_server : String
  smtp_port : Nat
  smtp_user : String
  smtp_pass : String
  email_to : String
  notify_bark_enable : Bool
  bark_url : String
  notify_wechat_enable : Bool
  wechat_key : String
deriving DecidableEq, Repr

/-- `DEFAULT_SETTINGS` of `src/main.py` lines 34-53. -/
def DEFAULT_SETTINGS : Settings :=
  { check_duration := 10
    prevent_reupload := true
    auto_delete := true
    rclone_remote := ""
    rclone_path := "/"
    rclone_buffer := "64M"
    rclone_transfers := "4"
    rclone_checkers := "8"
    notify_email_enable := false
    smtp_server := "smtp.qq.com"
    smtp_port := 465
    smtp_user := ""
    smtp_pass := ""
    email_to := ""
    notify_bark_enable := false
    bark_url := ""
    notify_wechat_enable := false
    wechat_key := "" }

/-- Per-channel outcome of `send_notification` (`src/main.py` lines
101-119): for each channel, whether the attempted send succeeded or its
exception was caught by that channel's own handler. -/
inductive ChanEvent
  | emailSent
  | emailError
  | barkSent
  | barkError
  | wechatSent
  | wechatError
deriving DecidableEq, Repr

/-- Network oracle for one `send_notification` call: whether each
channel's send, if attempted, succeeds (`true`) or raises (`false`). -/
structure NotifyEnv where
  emailOk : Bool
  barkOk : Bool
  wechatOk : Bool
deriving DecidableEq, Repr

/-- NotificationDispatcher, `send_notification` of `src/main.py` lines
101-119, returning the trace of channel events in source order.  Each
channel block is guarded exactly as in the source (enable flag plus
truthiness of the required string settings) and wrapped in its own
try/except, so a failing channel contributes an `*Error` event and control
falls through to the next block; the Lean function is total: no oracle
makes it raise to the caller. -/
def send_notification (s : Settings) (env : NotifyEnv) : List ChanEvent :=
  (if s.notify_email_enable && s.smtp_user != "" && s.email_to != "" then
    [if env.emailOk then ChanEvent.emailSent else ChanEvent.emailError]
  else []) ++
  (if s.notify_bark_enable && s.bark_url != "" then
    [if env.barkOk then ChanEvent.barkSent else ChanEvent.barkError]
  else []) ++
  (if s.notify_wechat_enable && s.wechat_key != "" then
    [if env.wechatOk then ChanEvent.wechatSent else ChanEvent.wechatError]
  else [])

/-- The email channel was attempted (sent or failed) in a dispatch trace. -/
def emailAttempted (evs : List ChanEvent) : Bool :=
  evs.any (fun e => e == ChanEvent.emailSent || e == ChanEvent.emailError)

/-- The Bark channel was attempted (sent or failed) in a dispatch trace. -/
def barkAttempted (evs : List ChanEvent) : Bool :=
  evs.any (fun e => e == ChanEvent.barkSent || e == ChanEvent.barkError)

/-- The WeChat channel was attempted (sent or failed) in a dispatch trace. -/
def wechatAttempted (evs : List ChanEvent) : Bool :=
  evs.any (fun e => e == ChanEvent.wechatSent || e == ChanEvent.wechatError)

/-- Pipeline events recorded in order by the embedded `process_file`:
the dedup SELECT (line 132), the stability check call (line 143), the
`subprocess.run` invocation of rclone (line 160) and the ledger
INSERT OR REPLACE (line 165). -/
inductive Ev
  | dedupLookup
  | stabilityCheck
  | uploadInvoke
  | ledgerWrite
deriving DecidableEq, Repr

/-- Filesystem / subprocess oracle for one `process_file` run.

* `exists0`   — result of `os.path.exists(filepath)` (line 122);
* `size0`     — `os.path.getsize(filepath)` (line 127), `none` = raises
  (uncaught: the run dies with no effect);
* `sample1`, `sample2` — the two `os.path.getsize` samples inside
  `is_file_free` (lines 95, 97), `none` = raises (caught there);
* `runResult` — `subprocess.run(cmd).returncode` (line 160), `none` =
  the invocation itself raises (tool missing / spawn failure), caught by
  the outer `except` on line 182;
* `now`       — `time.strftime(...)` (line 166);
* `removeOk`  — whether `os.remove(filepath)` succeeds (lines 137, 174);
* `listParent` — `os.listdir(parent)` emptiness (line 177): `some b` with
  `b` = "parent is empty", `none` = `os.listdir` raises (caught);
* `rmdirOk`   — whether `os.rmdir(parent)` succeeds (line 177, caught). -/
structure FsEnv where
  exists0 : Bool
  size0 : Option Nat
  sample1 : Option Nat
  sample2 : Option Nat
  runResult : Option Int
  now : String
  removeOk : Bool
  listParent : Option Bool
  rmdirOk : Bool
deriving DecidableEq, Repr

/-- Observable result of one `process_file` run: the ordered trace of
pipeline events, the final ledger, whether the local file was deleted,
whether its parent directory was removed, and the titles passed to
`send_notification`. -/
structure RunResult where
  trace : List Ev
  db : List Row
  fileDeleted : Bool
  parentRemoved : Bool
  notifications : List String
deriving DecidableEq, Repr

/-- PipelineCoordinator, `process_file` of `src/main.py` lines 121-182,
over the settings snapshot `s`, the oracle `env`, the path decomposed as
`dirpart`/`filename`, and the ledger contents `db`.

Control flow mirrors the source line by line: existence check (122),
transient-suffix filter (124), `os.path.getsize` (127), dedup lookup and
skip with optional local delete (129-140), stability check (143), empty
remote check (147-148), `subprocess.run` under the outer try (158-160),
status from the return code (162), ledger upsert (164-168), then on
success: notification, optional delete of the file (`os.remove` on 174 is
not under the inner try, so its failure aborts the rest via the outer
except after the notification was already sent) and best-effort removal of
an empty non-root parent (175-178); on failure: failure notification
(179-181). -/
def process_file (s : Settings) (env : FsEnv) (dirpart filename : String)
    (db : List Row) : RunResult :=
  if !env.exists0 then ⟨[], db, false, false, []⟩
  else if isTransientName filename then ⟨[], db, false, false, []⟩
  else
    match env.size0 with
    | none => ⟨[], db, false, false, []⟩
    | some filesize =>
      if s.prevent_reupload && lookupSuccess db filename filesize then
        ⟨[Ev.dedupLookup], db, s.auto_delete && env.removeOk, false, []⟩
      else
        let pre : List Ev := if s.prevent_reupload then [Ev.dedupLookup] else []
        let tr1 : List Ev := pre ++ [Ev.stabilityCheck]
        if !is_file_free s.check_duration env.sample1 env.sample2 then
          ⟨tr1, db, false, false, []⟩
        else if s.rclone_remote == "" then
          ⟨tr1, db, false, false, []⟩
        else
          let tr2 : List Ev := tr1 ++ [Ev.uploadInvoke]
          match env.runResult with
          | none => ⟨tr2, db, false, false, []⟩
          | some rc =>
            let status : String := if rc == 0 then "success" else "failed"
            let db2 : List Row :=
              recordUpsert db ⟨filename, filesize, env.now, status⟩
            let tr3 : List Ev := tr2 ++ [Ev.ledgerWrite]
            if rc == 0 then
              let deleted : Bool := s.auto_delete && env.removeOk
              let removed : Bool := s.auto_delete && env.removeOk &&
                (match env.listParent with
                 | some true =>
                   if dirpart == WATCH_DIR then false else env.rmdirOk
                 | _ => false)
              ⟨tr3, db2, deleted, removed, ["Rclone上传成功"]⟩
            else
              ⟨tr3, db2, false, false, ["Rclone上传失败"]⟩

/-- Settings snapshot with a configured remote, used as a concrete test
fixture. -/
def settingsR : Settings := { DEFAULT_SETTINGS with rclone_remote := "remote:" }

/-- Oracle for a run in which every external operation succeeds and the
upload tool exits 0. -/
def envAllOk : FsEnv :=
  ⟨true, some 100, some 100, some 100, some 0, "2026-10-12 00:00:00",
   true, some false, true⟩

/-- Oracle identical to `envAllOk` except that the upload tool exits 1. -/
def envFailExit : FsEnv := { envAllOk with runResult := some 1 }

/-- Oracle identical to `envAllOk` except that invoking the upload tool
raises (tool missing / spawn failure). -/
def envSpawnFail : FsEnv := { envAllOk with runResult := none }

/- ------------------------------------------------------------------ -/
/- Helper lemmas                                                       -/
/- ------------------------------------------------------------------ -/

lemma sameKey_refl (r : Row) : sameKey r r = true := by
  simp [sameKey]

lemma sameKey_comm (a b : Row) : sameKey a b = sameKey b a := by
  unfold sameKey
  rw [Bool.eq_iff_iff]
  simp only [Bool.and_eq_true, beq_iff_eq]
  exact ⟨fun ⟨h1, h2⟩ => ⟨h1.symm, h2.symm⟩, fun ⟨h1, h2⟩ => ⟨h1.symm, h2.symm⟩⟩

/-- Filtering an upserted ledger down to the upserted row's key yields
exactly the new row. -/
lemma filter_recordUpsert_self (db : List Row) (r : Row) :
    (recordUpsert db r).filter (fun q => sameKey q r) = [r] := by
  simp only [recordUpsert, sameKey, List.filter_cons]
  rw [if_pos (by simp)]
  rw [List.filter_filter]
  simp

/-- One upsert preserves the UNIQUE(filename, size) invariant. -/
lemma uniqueKeys_recordUpsert (db : List Row) (r : Row) (h : uniqueKeys db) :
    uniqueKeys (recordUpsert db r) := by
  unfold uniqueKeys recordUpsert at *
  refine List.Pairwise.cons (fun b hb => ?_) (h.filter _)
  have hb' := List.of_mem_filter hb
  rw [Bool.not_eq_true'] at hb'
  rw [sameKey_comm]
  exact hb'

/-- Any sequence of upserts preserves the UNIQUE(filename, size)
invariant. -/
lemma uniqueKeys_applyRecords (db : List Row) (rs : List Row)
    (h : uniqueKeys db) : uniqueKeys (applyRecords db rs) := by
  induction rs generalizing db with
  | nil => exact h
  | cons r rs ih => exact ih _ (uniqueKeys_recordUpsert _ _ h)

/- ------------------------------------------------------------------ -/
/- Claims                                                              -/
/- ------------------------------------------------------------------ -/

/-- C8: the stability check `is_file_free` returns `true` iff the two size
samples are equal, and returns `false` whenever either sampling point
raises (file vanished / unreadable, modelled by `none`); being a total Lean
function over the sample oracles, it never raises to its caller. -/
theorem stability_gate_spec (d : Nat) (a b : Nat) (o : Option Nat) :
    (is_file_free d (some a) (some b) = true ↔ a = b) ∧
    is_file_free d none o = false ∧
    is_file_free d o none = false := by
  refine ⟨by simp [is_file_free], rfl, ?_⟩
  cases o <;> rfl

/-- C9: each notification channel is attempted exactly when its own enable
flag and required settings say so — the per-channel failure oracle
(`NotifyEnv`) has no influence on which channels are attempted, so one
channel failing never prevents the others; and `send_notification` is a
total function, so no channel failure escapes the dispatcher. -/
theorem notification_isolation (s : Settings) (env : NotifyEnv) :
    emailAttempted (send_notification s env)
      = (s.notify_email_enable && s.smtp_user != "" && s.email_to != "") ∧
    barkAttempted (send_notification s env)
      = (s.notify_bark_enable && s.bark_url != "") ∧
    wechatAttempted (send_notification s env)
      = (s.notify_wechat_enable && s.wechat_key != "") := by
  obtain ⟨eok, bok, wok⟩ := env
  cases he : (s.notify_email_enable && s.smtp_user != "" && s.email_to != "") <;>
  cases hb : (s.notify_bark_enable && s.bark_url != "") <;>
  cases hw : (s.notify_wechat_enable && s.wechat_key != "") <;>
  cases eok <;> cases bok <;> cases wok <;>
    simp [send_notification, emailAttempted, barkAttempted, wechatAttempted,
          he, hb, hw]

/-- C5: the ledger keeps at most one row per (filename, size) key —
recording two outcomes `r1` then `r2` for the same key leaves exactly one
row for that key, namely the later-recorded `r2` (insert-or-replace), and
the uniqueness invariant holds after every sequence of record
operations. -/
theorem ledger_upsert_spec (db : List Row) (r1 r2 : Row) (rs : List Row)
    (hkey : sameKey r1 r2 = true) (hu : uniqueKeys db) :
    (recordUpsert (recordUpsert db r1) r2).filter (fun q => sameKey q r2)
      = [r2] ∧
    uniqueKeys (applyRecords db rs) :=
  ⟨filter_recordUpsert_self _ _, uniqueKeys_applyRecords db rs hu⟩

/-- Witness for C5 at a concrete ledger: a `failed` row followed by a
`success` row for the same (filename, size) key. -/
theorem ledger_upsert_spec_witness :
    (recordUpsert (recordUpsert [] ⟨"movie.mkv", 100, "t1", "failed"⟩)
        ⟨"movie.mkv", 100, "t2", "success"⟩).filter
        (fun q => sameKey q ⟨"movie.mkv", 100, "t2", "success"⟩)
      = [⟨"movie.mkv", 100, "t2", "success"⟩] ∧
    uniqueKeys (applyRecords []
      [⟨"movie.mkv", 100, "t1", "failed"⟩,
       ⟨"movie.mkv", 100, "t2", "success"⟩]) :=
  ledger_upsert_spec [] ⟨"movie.mkv", 100, "t1", "failed"⟩
    ⟨"movie.mkv", 100, "t2", "success"⟩
    [⟨"movie.mkv", 100, "t1", "failed"⟩, ⟨"movie.mkv", 100, "t2", "success"⟩]
    (by decide) (List.Pairwise.nil)

/-- C1 (counterexample): on a plain run with default-style settings
(`prevent_reupload = true`), the pipeline performs the dedup-ledger lookup
strictly BEFORE the stability check, contradicting the claimed order
filter → StabilityGate → DedupLedger lookup. -/
theorem pipeline_order_counterexample :
    (process_file settingsR envAllOk "/watchdir/sub" "movie.mkv" []).trace =
      [Ev.dedupLookup, Ev.stabilityCheck, Ev.uploadInvoke, Ev.ledgerWrite] ∧
    (process_file settingsR envAllOk "/watchdir/sub" "movie.mkv"
        []).trace.indexOf Ev.dedupLookup <
      (process_file settingsR envAllOk "/watchdir/sub" "movie.mkv"
        []).trace.indexOf Ev.stabilityCheck := by
  exact ⟨by decide, by decide⟩

/-- C1 (amended): with `prevent_reupload` enabled, every run that reaches
the ledger write performs the steps in the order: filter, then
dedup-ledger lookup, then stability check, then upload invocation, then
ledger write — the trace is exactly
`[dedupLookup, stabilityCheck, uploadInvoke, ledgerWrite]`. -/
theorem pipeline_order (s : Settings) (env : FsEnv)
    (dirpart filename : String) (db : List Row)
    (hprev : s.prevent_reupload = true)
    (hmem : Ev.ledgerWrite ∈ (process_file s env dirpart filename db).trace) :
    (process_file s env dirpart filename db).trace =
      [Ev.dedupLookup, Ev.stabilityCheck, Ev.uploadInvoke, Ev.ledgerWrite] := by
  obtain ⟨ex, sz0, s1, s2, rr, now, rok, lp, dok⟩ := env
  cases ex with
  | false => simp [process_file] at hmem
  | true =>
    cases sz0 with
    | none => simp [process_file] at hmem
    | some sz =>
      cases htn : isTransientName filename with
      | true => simp [process_file, htn] at hmem
      | false =>
        cases hdup : lookupSuccess db filename sz with
        | true => simp [process_file, htn, hdup, hprev] at hmem
        | false =>
          cases hst : is_file_free s.check_duration s1 s2 with
          | false => simp [process_file, htn, hdup, hprev, hst] at hmem
          | true =>
            cases hrem : s.rclone_remote == "" with
            | true => simp [process_file, htn, hdup, hprev, hst, hrem] at hmem
            | false =>
              cases rr with
              | none =>
                simp [process_file, htn, hdup, hprev, hst, hrem] at hmem
              | some rc =>
                cases hrc : rc == 0 <;>
                  simp [process_file, htn, hdup, hprev, hst, hrem, hrc]

/-- Witness for C1 (amended) at a concrete successful run. -/
theorem pipeline_order_witness :
    (process_file settingsR envAllOk "/watchdir/sub" "movie.mkv" []).trace =
      [Ev.dedupLookup, Ev.stabilityCheck, Ev.uploadInvoke, Ev.ledgerWrite] :=
  pipeline_order settingsR envAllOk "/watchdir/sub" "movie.mkv" []
    (by decide) (by decide)

/-- C2 (counterexample): `"file.TMP"` ends case-insensitively in `.tmp`
(its lowercase form ends in `.tmp`), yet it is NOT filtered — Python's
`endswith` is case-sensitive — and a run for it reaches the stability
check and the upload invocation. -/
theorem transient_filter_counterexample :
    strEndsWith (String.mk ("file.TMP".data.map Char.toLower)) ".tmp"
      = true ∧
    isTransientName "file.TMP" = false ∧
    Ev.stabilityCheck ∈
      (process_file settingsR envAllOk "/watchdir/sub" "file.TMP" []).trace ∧
    Ev.uploadInvoke ∈
      (process_file settingsR envAllOk "/watchdir/sub" "file.TMP" []).trace := by
  exact ⟨by decide, by decide, by decide, by decide⟩

/-- C2 (amended): for every file name ending case-sensitively in one of
the five fixed transient suffixes, the run ends at the filter step: the
trace is empty (no dedup lookup, no stability check, no upload, no ledger
write), the ledger is unchanged and nothing is notified or deleted. -/
theorem transient_filter_ends_run (s : Settings) (env : FsEnv)
    (dirpart filename : String) (db : List Row)
    (htn : isTransientName filename = true) :
    process_file s env dirpart filename db = ⟨[], db, false, false, []⟩ := by
  unfold process_file
  cases hex : env.exists0 <;> simp [hex, htn]

/-- Witness for C2 (amended) at the concrete name `"x.tmp"`. -/
theorem transient_filter_ends_run_witness :
    process_file settingsR envAllOk "/watchdir" "x.tmp" []
      = ⟨[], [], false, false, []⟩ :=
  transient_filter_ends_run settingsR envAllOk "/watchdir" "x.tmp" []
    (by decide)

/-- C3 (counterexample): when invoking the tool raises (oracle
`runResult = none`, tool missing / spawn failure), the run records NO
ledger row and sends NO notification, unlike the non-zero-exit run on the
same file, which records a `failed` row and notifies — the two cases are
not treated identically. -/
theorem spawn_failure_counterexample :
    Ev.uploadInvoke ∈
      (process_file settingsR envSpawnFail "/watchdir/sub" "movie.mkv"
        []).trace ∧
    (process_file settingsR envSpawnFail "/watchdir/sub" "movie.mkv" []).db
      = [] ∧
    (process_file settingsR envSpawnFail "/watchdir/sub" "movie.mkv"
        []).notifications = [] ∧
    (process_file settingsR envFailExit "/watchdir/sub" "movie.mkv" []).db
      = [⟨"movie.mkv", 100, "2026-10-12 00:00:00", "failed"⟩] ∧
    (process_file settingsR envFailExit "/watchdir/sub" "movie.mkv"
        []).notifications = ["Rclone上传失败"] := by
  exact ⟨by decide, by decide, by decide, by decide, by decide⟩

/-- C3 (amended): when the external tool cannot be invoked at all (the
invocation raises), the outer exception handler swallows it after logging:
the run ends with the ledger unchanged (no `Failed` row), no notification,
no file deletion and no ledger-write event. -/
theorem spawn_failure_silent (s : Settings) (env : FsEnv)
    (dirpart filename : String) (db : List Row)
    (hrr : env.runResult = none)
    (hmem : Ev.uploadInvoke ∈ (process_file s env dirpart filename db).trace) :
    (process_file s env dirpart filename db).db = db ∧
    (process_file s env dirpart filename db).notifications = [] ∧
    (process_file s env dirpart filename db).fileDeleted = false ∧
    (process_file s env dirpart filename db).parentRemoved = false ∧
    Ev.ledgerWrite ∉ (process_file s env dirpart filename db).trace := by
  obtain ⟨ex, sz0, s1, s2, rr, now, rok, lp, dok⟩ := env
  subst hrr
  cases ex with
  | false => simp [process_file] at hmem
  | true =>
    cases sz0 with
    | none => simp [process_file] at hmem
    | some sz =>
      cases htn : isTransientName filename with
      | true => simp [process_file, htn] at hmem
      | false =>
        cases hd : (s.prevent_reupload && lookupSuccess db filename sz) with
        | true => simp [process_file, htn, hd] at hmem
        | false =>
          cases hst : is_file_free s.check_duration s1 s2 with
          | false => simp [process_file, htn, hd, hst] at hmem
          | true =>
            cases hrem : s.rclone_remote == "" with
            | true => simp [process_file, htn, hd, hst, hrem] at hmem
            | false =>
              cases hp : s.prevent_reupload with
              | false => simp [process_file, htn, hd, hst, hrem, hp]
              | true =>
                rw [hp, Bool.true_and] at hd
                simp [process_file, htn, hp, hd, hst, hrem]

/-- Witness for C3 (amended) at a concrete spawn-failure run. -/
theorem spawn_failure_silent_witness :
    (process_file settingsR envSpawnFail "/watchdir/sub" "movie.mkv" []).db
      = [] ∧
    (process_file settingsR envSpawnFail "/watchdir/sub" "movie.mkv"
        []).notifications = [] ∧
    (process_file settingsR envSpawnFail "/watchdir/sub" "movie.mkv"
        []).fileDeleted = false ∧
    (process_file settingsR envSpawnFail "/watchdir/sub" "movie.mkv"
        []).parentRemoved = false ∧
    Ev.ledgerWrite ∉
      (process_file settingsR envSpawnFail "/watchdir/sub" "movie.mkv"
        []).trace :=
  spawn_failure_silent settingsR envSpawnFail "/watchdir/sub" "movie.mkv" []
    (by decide) (by decide)

/-- C4: with `prevent_reupload` enabled and a prior `success` row for the
file's (basename, size) key, the run never invokes the upload tool and
leaves the ledger contents unchanged. -/
theorem dedup_idempotent_skip (s : Settings) (env : FsEnv)
    (dirpart filename : String) (db : List Row) (sz : Nat)
    (hprev : s.prevent_reupload = true)
    (hex : env.exists0 = true)
    (htn : isTransientName filename = false)
    (hsz : env.size0 = some sz)
    (hdup : lookupSuccess db filename sz = true) :
    Ev.uploadInvoke ∉ (process_file s env dirpart filename db).trace ∧
    (process_file s env dirpart filename db).db = db := by
  simp [process_file, hprev, hex, htn, hsz, hdup]

/-- Witness for C4 at a concrete ledger with a prior `success` row. -/
theorem dedup_idempotent_skip_witness :
    Ev.uploadInvoke ∉
      (process_file settingsR envAllOk "/watchdir/sub" "movie.mkv"
        [⟨"movie.mkv", 100, "t0", "success"⟩]).trace ∧
    (process_file settingsR envAllOk "/watchdir/sub" "movie.mkv"
        [⟨"movie.mkv", 100, "t0", "success"⟩]).db
      = [⟨"movie.mkv", 100, "t0", "success"⟩] :=
  dedup_idempotent_skip settingsR envAllOk "/watchdir/sub" "movie.mkv"
    [⟨"movie.mkv", 100, "t0", "success"⟩] 100
    (by decide) (by decide) (by decide) (by decide) (by decide)

/-- C6: every run whose upload attempt exits non-zero (`Failed`) neither
deletes the local file nor removes its parent directory, whatever the
`auto_delete` setting. -/
theorem failure_retains_file (s : Settings) (env : FsEnv)
    (dirpart filename : String) (db : List Row) (rc : Int)
    (hrr : env.runResult = some rc)
    (hrc : (rc == 0) = false)
    (hmem : Ev.uploadInvoke ∈ (process_file s env dirpart filename db).trace) :
    (process_file s env dirpart filename db).fileDeleted = false ∧
    (process_file s env dirpart filename db).parentRemoved = false := by
  obtain ⟨ex, sz0, s1, s2, rr, now, rok, lp, dok⟩ := env
  subst hrr
  cases ex with
  | false => simp [process_file] at hmem
  | true =>
    cases sz0 with
    | none => simp [process_file] at hmem
    | some sz =>
      cases htn : isTransientName filename with
      | true => simp [process_file, htn] at hmem
      | false =>
        cases hd : (s.prevent_reupload && lookupSuccess db filename sz) with
        | true => simp [process_file, htn, hd] at hmem
        | false =>
          cases hst : is_file_free s.check_duration s1 s2 with
          | false => simp [process_file, htn, hd, hst] at hmem
          | true =>
            cases hrem : s.rclone_remote == "" with
            | true => simp [process_file, htn, hd, hst, hrem] at hmem
            | false => simp [process_file, htn, hd, hst, hrem, hrc]

/-- Witness for C6 at a concrete exit-code-1 run with
`auto_delete = true`. -/
theorem failure_retains_file_witness :
    (process_file settingsR envFailExit "/watchdir/sub" "movie.mkv"
        []).fileDeleted = false ∧
    (process_file settingsR envFailExit "/watchdir/sub" "movie.mkv"
        []).parentRemoved = false :=
  failure_retains_file settingsR envFailExit "/watchdir/sub" "movie.mkv" [] 1
    (by decide) (by decide) (by decide)

/-- C7: on a successful upload (exit 0) with `os.remove` succeeding and
`os.listdir` answering (`listParent = some b`), the local file is deleted
exactly when `auto_delete` is enabled; the parent directory is removed
exactly when `auto_delete` is enabled AND the parent is empty AND the
parent is not the watch root AND `os.rmdir` itself succeeds (its failure
is swallowed); and in every such case the run still completes with the
success notification, so cleanup failures never propagate. -/
theorem cleanup_spec (s : Settings) (env : FsEnv)
    (dirpart filename : String) (db : List Row) (b : Bool)
    (hrr : env.runResult = some 0)
    (hrm : env.removeOk = true)
    (hlp : env.listParent = some b)
    (hmem : Ev.uploadInvoke ∈ (process_file s env dirpart filename db).trace) :
    (process_file s env dirpart filename db).fileDeleted = s.auto_delete ∧
    (process_file s env dirpart filename db).parentRemoved =
      (s.auto_delete && b && !(dirpart == WATCH_DIR) && env.rmdirOk) ∧
    (process_file s env dirpart filename db).notifications
      = ["Rclone上传成功"] := by
  obtain ⟨ex, sz0, s1, s2, rr, now, rok, lp, dok⟩ := env
  subst hrr
  subst hrm
  subst hlp
  cases ex with
  | false => simp [process_file] at hmem
  | true =>
    cases sz0 with
    | none => simp [process_file] at hmem
    | some sz =>
      cases htn : isTransientName filename with
      | true => simp [process_file, htn] at hmem
      | false =>
        cases hd : (s.prevent_reupload && lookupSuccess db filename sz) with
        | true => simp [process_file, htn, hd] at hmem
        | false =>
          cases hst : is_file_free s.check_duration s1 s2 with
          | false => simp [process_file, htn, hd, hst] at hmem
          | true =>
            cases hrem : s.rclone_remote == "" with
            | true => simp [process_file, htn, hd, hst, hrem] at hmem
            | false =>
              cases b <;> cases had : s.auto_delete <;>
                cases hw : (dirpart == WATCH_DIR) <;> cases dok <;>
                simp [process_file, htn, hd, hst, hrem, had, hw]

/-- Witness for C7 at a concrete successful run (`auto_delete = true`,
parent non-empty, parent not the watch root). -/
theorem cleanup_spec_witness :
    (process_file settingsR envAllOk "/watchdir/sub" "movie.mkv"
        []).fileDeleted = settingsR.auto_delete ∧
    (process_file settingsR envAllOk "/watchdir/sub" "movie.mkv"
        []).parentRemoved =
      (settingsR.auto_delete && false && !("/watchdir/sub" == WATCH_DIR) &&
        envAllOk.rmdirOk) ∧
    (process_file settingsR envAllOk "/watchdir/sub" "movie.mkv"
        []).notifications = ["Rclone上传成功"] :=
  cleanup_spec settingsR envAllOk "/watchdir/sub" "movie.mkv" [] false
    (by decide) (by decide) (by decide) (by decide)

/-- C10: with an empty configured remote, a run for an existing,
non-filtered, non-duplicate, stable file ends silently right after the
stability check: no upload invocation, no ledger change, no notification,
no deletion. -/
theorem empty_remote_silent (s : Settings) (env : FsEnv)
    (dirpart filename : String) (db : List Row) (sz : Nat)
    (hex : env.exists0 = true)
    (htn : isTransientName filename = false)
    (hsz : env.size0 = some sz)
    (hdup : lookupSuccess db filename sz = false)
    (hst : is_file_free s.check_duration env.sample1 env.sample2 = true)
    (hrem : s.rclone_remote = "") :
    Ev.stabilityCheck ∈ (process_file s env dirpart filename db).trace ∧
    Ev.uploadInvoke ∉ (process_file s env dirpart filename db).trace ∧
    (process_file s env dirpart filename db).db = db ∧
    (process_file s env dirpart filename db).notifications = [] ∧
    (process_file s env dirpart filename db).fileDeleted = false ∧
    (process_file s env dirpart filename db).parentRemoved = false := by
  cases hp : s.prevent_reupload <;>
    simp [process_file, hex, htn, hsz, hdup, hst, hrem, hp]

/-- Witness for C10 at the default (empty-remote) settings. -/
theorem empty_remote_silent_witness :
    Ev.stabilityCheck ∈
      (process_file DEFAULT_SETTINGS envAllOk "/watchdir/sub" "movie.mkv"
        []).trace ∧
    Ev.uploadInvoke ∉
      (process_file DEFAULT_SETTINGS envAllOk "/watchdir/sub" "movie.mkv"
        []).trace ∧
    (process_file DEFAULT_SETTINGS envAllOk "/watchdir/sub" "movie.mkv"
        []).db = [] ∧
    (process_file DEFAULT_SETTINGS envAllOk "/watchdir/sub" "movie.mkv"
        []).notifications = [] ∧
    (process_file DEFAULT_SETTINGS envAllOk "/watchdir/sub" "movie.mkv"
        []).fileDeleted = false ∧
    (process_file DEFAULT_SETTINGS envAllOk "/watchdir/sub" "movie.mkv"
        []).parentRemoved = false :=
  empty_remote_silent DEFAULT_SETTINGS envAllOk "/watchdir/sub" "movie.mkv"
    [] 100 (by decide) (by decide) (by decide) (by decide) (by decide)
    (by decide)

end NasRclone
